import Mathlib

/-!
Verification of the pension benefit calculation engine
(`pension_calculator_app.py` and `streamlit_batch_pension_calculator_app.py`).

Modelling conventions:
* Python numbers (floats) are embedded as exact rationals `ℚ`.
* The Python float power `**` appears with fractional exponents (e.g.
  `(1 + discount_rate) ** -preferred_max_arrears_years`), whose exact value is
  irrational in general.  It is therefore modelled as a parameter
  `fpow : ℚ → ℚ → ℚ`; every theorem about the engine holds for every `fpow`.
  For the algebraic pmt/pv inverse property, `pmtZ`/`pvZ` below specialise the
  same source formulas to integer period counts, where `**` is exact integer
  power on `ℚ`.
* Fallible code (Python `raise ValueError`) is embedded as `Except`.
* Lookup tables (pandas dataframes loaded from CSV, supplied as already-parsed
  tabular inputs per the design) are embedded as lookup functions.
-/

/-- Constant `MANAGEMENT_CHARGES = 0.065`. -/
def management_charges : ℚ := 0.065

/-- Constant `REGULATORY_CHARGES = 0.01`. -/
def regulatory_charges : ℚ := 0.01

/-- Constant `INTEREST_RATE = 0.105`. -/
def interest_rate : ℚ := 0.105

/-- Constant `DISCOUNT_RATE = 0.08`. -/
def discount_rate : ℚ := 0.08

/-- Constant `MIN_LUMPSUM = 0`. -/
def min_lumpsum : ℚ := 0

/-- Constant `MIN_REG_LUMPSUM = 0.25`. -/
def min_reg_lumpsum : ℚ := 0.25

/-- Constant `MIN_PENSION_PAYOUT = 0.5`. -/
def min_pension_payout : ℚ := 0.5

/-- Constant `INTEREST_RATE_NET_CHARGES = INTEREST_RATE * (1 - MANAGEMENT_CHARGES - REGULATORY_CHARGES)`. -/
def interest_rate_net_charges : ℚ := interest_rate * (1 - management_charges - regulatory_charges)

/-- Constant `monthly_rate = interest_rate_net_charges / 12`
(computed in both apps before calling `pv`/`pmt`). -/
def monthly_rate : ℚ := interest_rate_net_charges / 12

/-- Source `pmt(rate, nper, pv, fv=0, when=0)`, with the Python float
`**` modelled by the parameter `fpow` (so `factor = (1 + rate) ** nper` becomes
`fpow (1 + rate) nper`). -/
def pmt (fpow : ℚ → ℚ → ℚ) (rate nper pv_amt fv when : ℚ) : ℚ :=
  if rate = 0 then -(pv_amt + fv) / nper
  else
    -(pv_amt * fpow (1 + rate) nper + fv) /
      ((1 + rate * when) * (fpow (1 + rate) nper - 1) / rate)

/-- Source `pv(rate, nper, pmt, fv=0, when=0)`, with `**` modelled by `fpow`. -/
def pv (fpow : ℚ → ℚ → ℚ) (rate nper pmt_amt fv when : ℚ) : ℚ :=
  if rate = 0 then -pmt_amt * nper - fv
  else
    -(pmt_amt * (1 + rate * when) * (fpow (1 + rate) nper - 1) / rate + fv) /
      fpow (1 + rate) nper

/-- Version of `pmt` specialised to an integer number of periods `nper : ℤ`,
where the Python `(1 + rate) ** nper` is the exact integer power `(1 + rate) ^ nper` on `ℚ`.
Same formula as the source `pmt`. -/
def pmtZ (rate : ℚ) (nper : ℤ) (pv_amt fv when : ℚ) : ℚ :=
  if rate = 0 then -(pv_amt + fv) / (nper : ℚ)
  else
    -(pv_amt * (1 + rate) ^ nper + fv) /
      ((1 + rate * when) * ((1 + rate) ^ nper - 1) / rate)

/-- Version of `pv` specialised to an integer number of periods `nper : ℤ`,
with exact integer power for `**`.  Same formula as the source `pv`. -/
def pvZ (rate : ℚ) (nper : ℤ) (pmt_amt fv when : ℚ) : ℚ :=
  if rate = 0 then -pmt_amt * (nper : ℚ) - fv
  else
    -(pmt_amt * (1 + rate * when) * ((1 + rate) ^ nper - 1) / rate + fv) /
      (1 + rate) ^ nper

/-- Source `determine_lumpsum(max_lumpsum, adjusted_rsa, regulatory)`. -/
def determine_lumpsum (max_lumpsum adjusted_rsa regulatory : ℚ) : ℚ :=
  if max_lumpsum > adjusted_rsa then adjusted_rsa
  else if max_lumpsum > regulatory then max_lumpsum
  else regulatory

/-- The error kinds raised by the validation helpers of the interactive app. -/
inductive CalcError where
  | BelowMinimum
  | ExceedsMax
  | ExceedsRegulatory
  | ExceedsMaxArrears
deriving DecidableEq

/-- Source `compute_final_monthly_pension(final_lumpsum, min_lumpsum,
max_lumpsum, regulatory_lumpsum, new_adjusted_balance, monthly_rate, nper)`:
three ordered validation checks, then the pension from the residual balance. -/
def compute_final_monthly_pension (fpow : ℚ → ℚ → ℚ)
    (final_lumpsum min_lump max_lumpsum regulatory_lumpsum
      new_adjusted_balance rate nper : ℚ) : Except CalcError ℚ :=
  if final_lumpsum < min_lump then .error .BelowMinimum
  else if max_lumpsum > regulatory_lumpsum ∧ final_lumpsum > max_lumpsum then .error .ExceedsMax
  else if max_lumpsum < regulatory_lumpsum ∧ final_lumpsum > regulatory_lumpsum then
    .error .ExceedsRegulatory
  else .ok (-(pmt fpow rate nper (new_adjusted_balance - final_lumpsum) 0 1))

/-- Source `get_final_arrears_months(negotiated_months, max_allowable_months)`. -/
def get_final_arrears_months (negotiated_months max_allowable_months : ℚ) :
    Except CalcError ℚ :=
  if negotiated_months > max_allowable_months then .error .ExceedsMaxArrears
  else if negotiated_months < max_allowable_months then .ok negotiated_months
  else .ok max_allowable_months

/-- Source
`calculate_pension_arrears(frequency, final_arrears_months, final_monthly_pension)`. -/
def calculate_pension_arrears (frequency final_arrears_months final_monthly_pension : ℚ) : ℚ :=
  if frequency = 4 then final_arrears_months / 3 * final_monthly_pension
  else final_arrears_months * final_monthly_pension

/-- A calendar date, as in the Python `datetime.date`/`datetime.datetime`
(the apps only use midnight datetimes, so the time part is irrelevant). -/
structure Date where
  year : ℤ
  month : ℤ
  day : ℤ
deriving DecidableEq

/-- Chronological order on dates (lexicographic on year, month, day), the
order Python uses to compare `datetime` values. -/
def Date.le (a b : Date) : Prop :=
  a.year < b.year ∨ (a.year = b.year ∧
    (a.month < b.month ∨ (a.month = b.month ∧ a.day ≤ b.day)))

instance (a b : Date) : Decidable (Date.le a b) := by
  unfold Date.le; exact inferInstance

/-- Gregorian leap year test, as in the Python function `calendar.isleap`. -/
def isLeap (y : ℤ) : Prop := y % 4 = 0 ∧ (y % 100 ≠ 0 ∨ y % 400 = 0)

instance (y : ℤ) : Decidable (isLeap y) := by
  unfold isLeap; exact inferInstance

/-- Number of days in a month (`calendar.monthrange(year, month)[1]`). -/
def daysInMonth (y m : ℤ) : ℤ :=
  if m = 2 then (if isLeap y then 29 else 28)
  else if m = 4 ∨ m = 6 ∨ m = 9 ∨ m = 11 then 30
  else 31

/-- Month shift `date + relativedelta(months=k)`: advance by `k` calendar
months, clamping the day to the length of the target month (the dateutil
month arithmetic). -/
def addMonths (d : Date) (k : ℤ) : Date :=
  let t := d.year * 12 + (d.month - 1) + k
  let y := t.ediv 12
  let m := t.emod 12 + 1
  { year := y, month := m, day := min d.day (daysInMonth y m) }

/-- Days since a fixed epoch for a Gregorian date (civil-calendar day number);
differences of `rataDie` values model the Python `(end_date - start_date).days`. -/
def rataDie (d : Date) : ℤ :=
  let y := d.year - (if d.month ≤ 2 then 1 else 0)
  let era := y.fdiv 400
  let yoe := y - era * 400
  let doy := (153 * (if d.month > 2 then d.month - 3 else d.month + 9) + 2).ediv 5 + d.day - 1
  let doe := yoe * 365 + yoe.ediv 4 - yoe.ediv 100 + doy
  era * 146097 + doe - 719468

/-- The year/month/day components of `dateutil.relativedelta(dt1, dt2)`. -/
structure RelDelta where
  years : ℤ
  months : ℤ
  days : ℤ
deriving DecidableEq

/-- Function `relativedelta(dt1, dt2)` from dateutil: the largest month count `months`
with `dt2 + months ≤ dt1` (for `dt1 ≥ dt2`; symmetric otherwise), found from
the raw year/month difference with at most one adjustment step, then the
remaining day difference; `years`/`months` are normalised with truncation
toward zero as in `relativedelta._set_months`. -/
def relativedelta (dt1 dt2 : Date) : RelDelta :=
  let months0 := (dt1.year - dt2.year) * 12 + (dt1.month - dt2.month)
  let months :=
    if Date.le dt2 dt1 then
      if Date.le (addMonths dt2 months0) dt1 then months0 else months0 - 1
    else
      if Date.le dt1 (addMonths dt2 months0) then months0 else months0 + 1
  let days := rataDie dt1 - rataDie (addMonths dt2 months)
  { years := months.tdiv 12, months := months.tmod 12, days := days }

/-- Source `datedif(start_date, end_date, "Y")`:
`relativedelta(end_date, start_date).years`. -/
def datedif_Y (start_date end_date : Date) : ℤ :=
  (relativedelta end_date start_date).years

/-- Source `yearfrac(start_date, end_date)`:
`delta.years + delta.months / 12 + delta.days / 365.25` for
`delta = relativedelta(end_date, start_date)`. -/
def yearfrac (start_date end_date : Date) : ℚ :=
  let delta := relativedelta end_date start_date
  (delta.years : ℚ) + (delta.months : ℚ) / 12 + (delta.days : ℚ) / 365.25

/-- The Python `round(x, 0)`: round to the nearest integer, ties to the even
integer (half-to-even rounding on the exact value). -/
def pyRound (x : ℚ) : ℤ :=
  if x - ⌊x⌋ < 1/2 then ⌊x⌋
  else if 1/2 < x - ⌊x⌋ then ⌊x⌋ + 1
  else if ⌊x⌋ % 2 = 0 then ⌊x⌋ else ⌊x⌋ + 1

/-- The pre-rounding arrears month count from both apps:
`yearfrac(retirement, programming) * 12`, capped at 6 when the sector is
`"PR"`. -/
def max_arrears_q (retirement_date programming_date : Date) (sector : String) : ℚ :=
  let m := yearfrac retirement_date programming_date * 12
  if sector = "PR" then min m 6 else m

/-- Source `max_arrears = round(max_arrears_months, 0)` from both apps. -/
def max_arrears (retirement_date programming_date : Date) (sector : String) : ℤ :=
  pyRound (max_arrears_q retirement_date programming_date sector)

/-- The regulatory cutoff date `01-09-2024` from the source. -/
def cutoff_date : Date := ⟨2024, 9, 1⟩

/-- The Python `str.upper()` for the ASCII identifiers used by the apps
(`gender`, `sector`). -/
def pyUpper (s : String) : String := String.mk (s.data.map Char.toUpper)

/-- The lookup tables loaded at startup (the four annuity-factor dataframes
and the salary-scale dataframe), embedded as lookup functions: an
annuity-factor table maps an integer age to its `ax` value when present
(`table.loc` filtered on the age column), and the salary table maps the
(structure, grade level, step) triple to an annual salary when a row matches
(`get_annual_salary`, case-insensitive on the structure name). -/
structure Tables where
  male4 : ℤ → Option ℚ
  male12 : ℤ → Option ℚ
  female4 : ℤ → Option ℚ
  female12 : ℤ → Option ℚ
  salary : String → String → String → Option ℚ

/-- Source `lookup_ax(gender, frequency, retirement_age)` from the batch app: four-way
dispatch on (uppercased gender, frequency), then exact-age lookup. -/
def lookup_ax (tables : Tables) (gender : String) (frequency : ℤ)
    (retirement_age : ℤ) : Except String ℚ :=
  let table? : Option (ℤ → Option ℚ) :=
    if pyUpper gender = "M" ∧ frequency = 4 then some tables.male4
    else if pyUpper gender = "M" ∧ frequency = 12 then some tables.male12
    else if pyUpper gender = "F" ∧ frequency = 4 then some tables.female4
    else if pyUpper gender = "F" ∧ frequency = 12 then some tables.female12
    else none
  match table? with
  | none => .error ("Invalid combination of gender (" ++ gender ++ ") and frequency ("
      ++ toString frequency ++ ").")
  | some table =>
    match table retirement_age with
    | some ax => .ok ax
    | none => .error ("Age " ++ toString retirement_age ++ " not found in selected table.")

/-- One input row of the batch spreadsheet, with the three dates already
parsed (`pd.to_datetime`) and the numeric columns already converted, as the
batch app does before any calculation. -/
structure ClientRow where
  client_id : String
  date_of_birth : Date
  retirement_date : Date
  programming_date : Date
  gender : String
  sector : String
  frequency : ℤ
  rsa_balance : ℚ
  monthly_salary : ℚ
  salary_structure : String
  grade_level : String
  step : String

/-- One output record of the batch app (`process_single_client` /
`create_error_result`): a status, an error message, and the nine computed
fields, each nullable. -/
structure ClientResult where
  client_id : String
  status : String
  error_message : String
  current_age : Option ℤ
  retirement_age : Option ℤ
  validated_salary : Option ℚ
  max_arrears_months : Option ℤ
  final_lumpsum : Option ℚ
  final_monthly_pension : Option ℚ
  pension_arrears : Option ℚ
  total_benefit : Option ℚ
  annuity_premium : Option ℚ
deriving DecidableEq

/-- Source `create_error_result(row, error_message)` from the batch app: status
`ERROR`, the originating message, and every computed field `None`. -/
def create_error_result (row : ClientRow) (error_message : String) : ClientResult :=
  { client_id := row.client_id
    status := "ERROR"
    error_message := error_message
    current_age := none
    retirement_age := none
    validated_salary := none
    max_arrears_months := none
    final_lumpsum := none
    final_monthly_pension := none
    pension_arrears := none
    total_benefit := none
    annuity_premium := none }

/-- The lump-sum bound intermediates of `process_single_client`
(lines computing `new_adjusted_balance` through `recommended_lumpsum`),
given the already-resolved salary and looked-up annuity factor. -/
structure LumpSumBounds where
  new_adjusted_balance : ℚ
  regulatory_lumpsum : ℚ
  fifty_percent_salary : ℚ
  nc : ℚ
  nper : ℚ
  max_lumpsum : ℚ
  recommended_lumpsum : ℚ

/-- The lump-sum bound computation of `process_single_client` (and of the
configuration step of the interactive app), translated statement by
statement; the Python float `**` is the parameter `fpow`. -/
def lumpsum_bounds (fpow : ℚ → ℚ → ℚ) (rsa_balance preferred_arrears
    validated_salary frequency ax_value : ℚ) : LumpSumBounds :=
  let preferred_max_arrears_years := preferred_arrears / 12
  let new_adjusted_balance := rsa_balance * fpow (1 + discount_rate) (-preferred_max_arrears_years)
  let regulatory_lumpsum := rsa_balance * 0.25
  let fifty_percent_salary := validated_salary / frequency * min_pension_payout
  let nc := ax_value - 11/24
  let nper := 2 * frequency * nc
  let max_lumpsum := max 0 (new_adjusted_balance + pv fpow monthly_rate nper fifty_percent_salary 0 1)
  let recommended_lumpsum := determine_lumpsum max_lumpsum new_adjusted_balance regulatory_lumpsum
  { new_adjusted_balance := new_adjusted_balance
    regulatory_lumpsum := regulatory_lumpsum
    fifty_percent_salary := fifty_percent_salary
    nc := nc
    nper := nper
    max_lumpsum := max_lumpsum
    recommended_lumpsum := recommended_lumpsum }

/-- The staged body of `process_single_client` from the batch app (the code
inside its `try`), as an `Except` pipeline: salary resolution and the
annuity-factor lookup can fail, everything else is arithmetic. -/
def process_single_client_core (fpow : ℚ → ℚ → ℚ) (tables : Tables)
    (row : ClientRow) : Except String ClientResult := do
  let gender := pyUpper row.gender
  let sector := pyUpper row.sector
  let frequency := row.frequency
  let rsa_balance := row.rsa_balance
  let current_age := datedif_Y row.date_of_birth row.programming_date
  let retirement_age := datedif_Y row.date_of_birth row.retirement_date
  let validated_salary ←
    if sector = "PU" ∧ Date.le cutoff_date row.retirement_date then
      match tables.salary row.salary_structure row.grade_level row.step with
      | some s => Except.ok s
      | none => Except.error "Salary structure not found"
    else Except.ok (row.monthly_salary * 12)
  let max_arrears_v := max_arrears row.retirement_date row.programming_date sector
  let preferred_arrears : ℚ := (max_arrears_v : ℚ)
  let ax_value ← lookup_ax tables gender frequency retirement_age
  let b := lumpsum_bounds fpow rsa_balance preferred_arrears validated_salary (frequency : ℚ) ax_value
  let final_lumpsum := b.recommended_lumpsum
  let residual := b.new_adjusted_balance - final_lumpsum
  let final_monthly_pension := -(pmt fpow monthly_rate b.nper residual 0 1)
  let pension_arrears := calculate_pension_arrears (frequency : ℚ) preferred_arrears final_monthly_pension
  let total_benefit := final_lumpsum + pension_arrears
  let annuity_premium := rsa_balance - total_benefit - final_monthly_pension
  pure
    { client_id := row.client_id
      status := "SUCCESS"
      error_message := ""
      current_age := some current_age
      retirement_age := some retirement_age
      validated_salary := some validated_salary
      max_arrears_months := some max_arrears_v
      final_lumpsum := some final_lumpsum
      final_monthly_pension := some final_monthly_pension
      pension_arrears := some pension_arrears
      total_benefit := some total_benefit
      annuity_premium := some annuity_premium }

/-- Source `process_single_client(row)` from the batch app: the staged body, with any
stage failure caught and turned into `create_error_result`. -/
def process_single_client (fpow : ℚ → ℚ → ℚ) (tables : Tables)
    (row : ClientRow) : ClientResult :=
  match process_single_client_core fpow tables row with
  | .ok r => r
  | .error e => create_error_result row e

/-- Source `process_batch(df)` from the batch app: one result per row, in order. -/
def process_batch (fpow : ℚ → ℚ → ℚ) (tables : Tables)
    (rows : List ClientRow) : List ClientResult :=
  rows.map (process_single_client fpow tables)

/-- The salary-determination step of the interactive app (`main`): salary-scale
lookup for public sector retiring on or after the cutoff, otherwise
`monthly_salary * 12` when the declared monthly salary is positive and `None`
otherwise. -/
def validated_salary_interactive (sector : String) (retirement_date : Date)
    (salary_lookup : Option ℚ) (monthly_salary : ℚ) : Option ℚ :=
  if sector = "PU" ∧ Date.le cutoff_date retirement_date then salary_lookup
  else if monthly_salary > 0 then some (monthly_salary * 12) else none

/-- The salary-determination step of the batch app (`process_single_client`):
same branch condition, but the declared-salary branch is
`monthly_salary * 12` unconditionally (no positivity check). -/
def validated_salary_batch (sector : String) (retirement_date : Date)
    (salary_lookup : Option ℚ) (monthly_salary : ℚ) : Option ℚ :=
  if sector = "PU" ∧ Date.le cutoff_date retirement_date then salary_lookup
  else some (monthly_salary * 12)

/-- C2: `determine_lumpsum` returns the adjusted balance when the computed max
exceeds it, else the computed max when that exceeds the regulatory amount, else
the regulatory amount; with the three literal branch tests
`determine_lumpsum(100, 80, 50) = 80`, `(70, 80, 50) = 70`, `(40, 80, 50) = 50`. -/
theorem determine_lumpsum_spec :
    (∀ maxL adj reg : ℚ,
      (maxL > adj → determine_lumpsum maxL adj reg = adj) ∧
      (maxL ≤ adj → maxL > reg → determine_lumpsum maxL adj reg = maxL) ∧
      (maxL ≤ adj → maxL ≤ reg → determine_lumpsum maxL adj reg = reg)) ∧
    determine_lumpsum 100 80 50 = 80 ∧
    determine_lumpsum 70 80 50 = 70 ∧
    determine_lumpsum 40 80 50 = 50 := by
  refine ⟨?_, by decide, by decide, by decide⟩
  intro maxL adj reg
  unfold determine_lumpsum
  refine ⟨fun h => ?_, fun h1 h2 => ?_, fun h1 h2 => ?_⟩
  · rw [if_pos h]
  · rw [if_neg (not_lt.mpr h1), if_pos h2]
  · rw [if_neg (not_lt.mpr h1), if_neg (not_lt.mpr h2)]

/-- Witness for C2 at the literal input of the first branch. -/
theorem determine_lumpsum_spec_witness :
    (100 : ℚ) > 80 ∧ determine_lumpsum 100 80 50 = 80 :=
  ⟨by norm_num, (determine_lumpsum_spec.1 100 80 50).1 (by norm_num)⟩

/-- C7: `get_final_arrears_months` fails `ExceedsMaxArrears` exactly when the
negotiated months exceed the maximum, returns the negotiated months when
strictly below, and returns the maximum when equal; with the literal tests
`(10, 8)` failing, `(8, 10) = 8` and `(10, 10) = 10`. -/
theorem final_arrears_months_spec :
    (∀ n m : ℚ,
      (get_final_arrears_months n m = .error .ExceedsMaxArrears ↔ n > m) ∧
      (n < m → get_final_arrears_months n m = .ok n) ∧
      (n = m → get_final_arrears_months n m = .ok m)) ∧
    get_final_arrears_months 10 8 = .error .ExceedsMaxArrears ∧
    get_final_arrears_months 8 10 = .ok 8 ∧
    get_final_arrears_months 10 10 = .ok 10 := by
  refine ⟨?_, by norm_num [get_final_arrears_months], by norm_num [get_final_arrears_months],
    by norm_num [get_final_arrears_months]⟩
  intro n m
  unfold get_final_arrears_months
  refine ⟨?_, fun h => ?_, fun h => ?_⟩
  · split_ifs with h1 h2 <;> simp [h1]
  · rw [if_neg (not_lt.mpr h.le), if_pos h]
  · subst h
    rw [if_neg (lt_irrefl n), if_neg (lt_irrefl n)]

/-- Witness for C7 at the strict-below literal input. -/
theorem final_arrears_months_spec_witness :
    (8 : ℚ) < 10 ∧ get_final_arrears_months 8 10 = .ok 8 :=
  ⟨by norm_num, (final_arrears_months_spec.1 8 10).2.1 (by norm_num)⟩

/-- C1: with the minimum lump-sum constant 0 as passed by `main`,
`compute_final_monthly_pension` fails `BelowMinimum` exactly when the chosen
lump-sum is negative, fails `ExceedsMax` exactly when (no earlier check fired
and) the max exceeds the regulatory amount and the chosen exceeds the max,
fails `ExceedsRegulatory` exactly when (no earlier check fired and) the max is
below the regulatory amount and the chosen exceeds the regulatory amount, and
otherwise returns `-pmt(rate, nper, adjusted - chosen, fv=0, when=1)`. -/
theorem validate_finalize_lumpsum_spec :
    ∀ (fpow : ℚ → ℚ → ℚ) (chosen maxL regL adj rate nper : ℚ),
      (compute_final_monthly_pension fpow chosen min_lumpsum maxL regL adj rate nper
          = .error .BelowMinimum ↔ chosen < 0) ∧
      (compute_final_monthly_pension fpow chosen min_lumpsum maxL regL adj rate nper
          = .error .ExceedsMax ↔ ¬chosen < 0 ∧ (maxL > regL ∧ chosen > maxL)) ∧
      (compute_final_monthly_pension fpow chosen min_lumpsum maxL regL adj rate nper
          = .error .ExceedsRegulatory ↔
            ¬chosen < 0 ∧ ¬(maxL > regL ∧ chosen > maxL) ∧ (maxL < regL ∧ chosen > regL)) ∧
      (¬chosen < 0 → ¬(maxL > regL ∧ chosen > maxL) → ¬(maxL < regL ∧ chosen > regL) →
        compute_final_monthly_pension fpow chosen min_lumpsum maxL regL adj rate nper
          = .ok (-(pmt fpow rate nper (adj - chosen) 0 1))) := by
  intro fpow chosen maxL regL adj rate nper
  unfold compute_final_monthly_pension min_lumpsum
  split_ifs with h1 h2 h3 <;> simp_all

/-- Witness for C1: all checks pass at a concrete input and the pension is the
negated payment of the residual. -/
theorem validate_finalize_lumpsum_spec_witness :
    ¬(10 : ℚ) < 0 ∧ ¬((100 : ℚ) > 50 ∧ (10 : ℚ) > 100) ∧
    ¬((100 : ℚ) < 50 ∧ (10 : ℚ) > 50) ∧
    compute_final_monthly_pension (fun _ _ => 2) 10 min_lumpsum 100 50 80 1 2
      = .ok (-(pmt (fun _ _ => 2) 1 2 (80 - 10) 0 1)) :=
  ⟨by norm_num, by norm_num, by norm_num,
    (validate_finalize_lumpsum_spec (fun _ _ => 2) 10 100 50 80 1 2).2.2.2
      (by norm_num) (by norm_num) (by norm_num)⟩

/-- C10: when the max lump-sum equals the regulatory lump-sum, both upper-limit
checks (strict inequalities) are vacuous, so every non-negative chosen lump-sum
— however large — passes validation and the pension is computed from the
possibly negative residual `adjusted - chosen`. -/
theorem equal_limits_no_upper_bound :
    ∀ (fpow : ℚ → ℚ → ℚ) (maxL adj chosen rate nper : ℚ), 0 ≤ chosen →
      compute_final_monthly_pension fpow chosen min_lumpsum maxL maxL adj rate nper
        = .ok (-(pmt fpow rate nper (adj - chosen) 0 1)) := by
  intro fpow maxL adj chosen rate nper h
  unfold compute_final_monthly_pension min_lumpsum
  rw [if_neg (not_lt.mpr h), if_neg (fun hc => lt_irrefl _ hc.1),
    if_neg (fun hc => lt_irrefl _ hc.1)]

/-- Witness for C10: chosen lump-sum 1000 exceeds the (equal) limits 10 and the
adjusted balance 5, yet validation succeeds. -/
theorem equal_limits_no_upper_bound_witness :
    (0 : ℚ) ≤ 1000 ∧ (1000 : ℚ) > 10 ∧ (1000 : ℚ) > 5 ∧
    compute_final_monthly_pension (fun _ _ => 16) 1000 min_lumpsum 10 10 5 1 3
      = .ok (-(pmt (fun _ _ => 16) 1 3 (5 - 1000) 0 1)) :=
  ⟨by norm_num, by norm_num, by norm_num,
    equal_limits_no_upper_bound (fun _ _ => 16) 10 5 1000 1 3 (by norm_num)⟩

/-- C9: for non-negative max, adjusted and regulatory lump-sums, the
recommended lump-sum from `determine_lumpsum` is non-negative, respects the max
when the max exceeds the regulatory amount, respects the regulatory amount when
the max is below it, and therefore passes every check of
`compute_final_monthly_pension` — the validation error branches are
unreachable for the recommended lump-sum of the batch path. -/
theorem recommended_lumpsum_safe :
    ∀ (fpow : ℚ → ℚ → ℚ) (maxL adj regL rate nper : ℚ),
      0 ≤ maxL → 0 ≤ adj → 0 ≤ regL →
      0 ≤ determine_lumpsum maxL adj regL ∧
      (maxL > regL → determine_lumpsum maxL adj regL ≤ maxL) ∧
      (maxL < regL → determine_lumpsum maxL adj regL ≤ regL) ∧
      compute_final_monthly_pension fpow (determine_lumpsum maxL adj regL)
          min_lumpsum maxL regL adj rate nper
        = .ok (-(pmt fpow rate nper (adj - determine_lumpsum maxL adj regL) 0 1)) := by
  intro fpow maxL adj regL rate nper hm ha hr
  have h0 : 0 ≤ determine_lumpsum maxL adj regL := by
    unfold determine_lumpsum; split_ifs <;> assumption
  have h1 : maxL > regL → determine_lumpsum maxL adj regL ≤ maxL := by
    intro h
    unfold determine_lumpsum
    by_cases g1 : maxL > adj
    · rw [if_pos g1]; exact g1.le
    · rw [if_neg g1, if_pos h]
  have h2 : maxL < regL → determine_lumpsum maxL adj regL ≤ regL := by
    intro h
    unfold determine_lumpsum
    by_cases g1 : maxL > adj
    · rw [if_pos g1]; exact (g1.trans h).le
    · rw [if_neg g1, if_neg (lt_asymm h)]
  refine ⟨h0, h1, h2, ?_⟩
  unfold compute_final_monthly_pension min_lumpsum
  rw [if_neg (not_lt.mpr h0),
    if_neg (fun hc => absurd hc.2 (not_lt.mpr (h1 hc.1))),
    if_neg (fun hc => absurd hc.2 (not_lt.mpr (h2 hc.1)))]

/-- Witness for C9 at a concrete non-negative triple. -/
theorem recommended_lumpsum_safe_witness :
    (0 : ℚ) ≤ 100 ∧ (0 : ℚ) ≤ 80 ∧ (0 : ℚ) ≤ 50 ∧
    (0 ≤ determine_lumpsum 100 80 50 ∧
      ((100 : ℚ) > 50 → determine_lumpsum 100 80 50 ≤ 100) ∧
      ((100 : ℚ) < 50 → determine_lumpsum 100 80 50 ≤ 50) ∧
      compute_final_monthly_pension (fun _ _ => 2) (determine_lumpsum 100 80 50)
          min_lumpsum 100 50 80 1 3
        = .ok (-(pmt (fun _ _ => 2) 1 3 (80 - determine_lumpsum 100 80 50) 0 1))) :=
  ⟨by norm_num, by norm_num, by norm_num,
    recommended_lumpsum_safe (fun _ _ => 2) 100 80 50 1 3
      (by norm_num) (by norm_num) (by norm_num)⟩

/-- Counterexample to C8 as stated: at the non-zero rate `-2`, non-zero period
count `2` (and `due = 0`), `(1 + rate) ^ n = 1`, the denominator in the
payment formula is zero (the Python code raises `ZeroDivisionError` there instead
of returning a payment), and the round trip does not return `pv0 = 1`. -/
theorem pmt_pv_inverse_cex :
    (-2 : ℚ) ≠ 0 ∧ (2 : ℤ) ≠ 0 ∧
    pvZ (-2) 2 (pmtZ (-2) 2 1 0 0) 0 0 ≠ 1 := by
  refine ⟨by norm_num, by norm_num, ?_⟩
  unfold pvZ pmtZ
  rw [if_neg (show (-2 : ℚ) ≠ 0 by norm_num), if_neg (show (-2 : ℚ) ≠ 0 by norm_num)]
  have h : ((1 : ℚ) + -2) ^ (2 : ℤ) = 1 := by norm_num
  rw [h]
  norm_num

/-- C8 amended: for every non-zero rate and non-zero period count such that the
compounding factor `(1 + rate) ^ n` is neither 0 nor 1 and the due adjustment
`1 + rate * due` is non-zero (all non-degenerate inputs; the excluded ones make
the source formulas divide by zero), `presentValue` is the exact algebraic
inverse of `payment` over the rationals. -/
theorem pmt_pv_inverse_amended :
    ∀ (rate fv when pv0 : ℚ) (n : ℤ), rate ≠ 0 → 1 + rate ≠ 0 →
      (1 + rate) ^ n ≠ 1 → 1 + rate * when ≠ 0 →
      pvZ rate n (pmtZ rate n pv0 fv when) fv when = pv0 := by
  intro rate fv when pv0 n hr hb hf1 hw
  have hf0 : (1 + rate) ^ n ≠ 0 := zpow_ne_zero n hb
  have hfm1 : (1 + rate) ^ n - 1 ≠ 0 := sub_ne_zero.mpr hf1
  unfold pvZ pmtZ
  rw [if_neg hr, if_neg hr]
  field_simp
  ring

/-- Witness for C8 amended at rate 1, one period, due, `pv0 = 100`. -/
theorem pmt_pv_inverse_amended_witness :
    (1 : ℚ) ≠ 0 ∧ 1 + (1 : ℚ) ≠ 0 ∧ (1 + (1 : ℚ)) ^ (1 : ℤ) ≠ 1 ∧
    1 + (1 : ℚ) * 1 ≠ 0 ∧ pvZ 1 1 (pmtZ 1 1 100 0 1) 0 1 = 100 :=
  ⟨by norm_num, by norm_num, by norm_num, by norm_num,
    pmt_pv_inverse_amended 1 0 1 100 1 (by norm_num) (by norm_num)
      (by norm_num) (by norm_num)⟩

/-- Counterexample to C5 as stated: in the declared-salary branch (private
sector), a non-positive declared monthly salary (0) yields `None` on the
interactive path but `Some 0` — not null — on the batch path. -/
theorem batch_salary_nonpositive_cex :
    (0 : ℚ) ≤ 0 ∧
    validated_salary_interactive "PR" ⟨2025, 1, 1⟩ none 0 = none ∧
    validated_salary_batch "PR" ⟨2025, 1, 1⟩ none 0 = some 0 := by
  refine ⟨le_refl 0, ?_, ?_⟩
  · unfold validated_salary_interactive
    rw [if_neg (by decide), if_neg (by norm_num)]
  · unfold validated_salary_batch
    rw [if_neg (by decide)]
    norm_num

/-- C5 amended: in the declared-salary branch (sector not public, or retirement
before the cutoff), the interactive path returns `declaredMonthlySalary * 12`
when the declared monthly salary is positive and null when it is non-positive;
the batch path returns `declaredMonthlySalary * 12` unconditionally, with no
null on non-positive salaries. -/
theorem resolve_salary_amended :
    ∀ (sector : String) (retirement_date : Date) (salary_lookup : Option ℚ) (m : ℚ),
      ¬(sector = "PU" ∧ Date.le cutoff_date retirement_date) →
      (0 < m →
        validated_salary_interactive sector retirement_date salary_lookup m = some (m * 12)) ∧
      (m ≤ 0 →
        validated_salary_interactive sector retirement_date salary_lookup m = none) ∧
      validated_salary_batch sector retirement_date salary_lookup m = some (m * 12) := by
  intro sector rd lk m hbranch
  unfold validated_salary_interactive validated_salary_batch
  rw [if_neg hbranch, if_neg hbranch]
  exact ⟨fun h => if_pos h, fun h => if_neg (not_lt.mpr h), rfl⟩

/-- Witness for C5 amended: private sector, positive declared salary 5. -/
theorem resolve_salary_amended_witness :
    ¬(("PR" : String) = "PU" ∧ Date.le cutoff_date ⟨2025, 1, 1⟩) ∧ (0 : ℚ) < 5 ∧
    validated_salary_interactive "PR" ⟨2025, 1, 1⟩ none 5 = some (5 * 12) :=
  ⟨by decide, by norm_num,
    (resolve_salary_amended "PR" ⟨2025, 1, 1⟩ none 5 (by decide)).1 (by norm_num)⟩

/-- C3: given RSA balance `B`, preferred arrears months `m`, annual salary `S`,
frequency `f ∈ {4, 12}` and the annuity factor `ax` looked up for the gender
and frequency of the client at the retirement age, the lump-sum bound step
computes `adjustedBalance = B * (1.08) ** (-(m/12))`,
`periods = 2 * f * (ax - 11/24)`,
`netMonthlyRate = 0.105 * (1 - 0.065 - 0.01) / 12`,
`regulatoryLumpSum = 0.25 * B`, and
`maxLumpSum = max 0 (adjustedBalance + pv(netMonthlyRate, periods, (S/f) * 0.5, fv=0, when=1))`. -/
theorem lumpsum_bounds_spec :
    ∀ (fpow : ℚ → ℚ → ℚ) (tables : Tables) (gender : String) (frequency : ℤ)
      (retirement_age : ℤ) (B m S ax : ℚ),
      ((frequency : ℚ) = 4 ∨ (frequency : ℚ) = 12) →
      lookup_ax tables gender frequency retirement_age = .ok ax →
      (lumpsum_bounds fpow B m S (frequency : ℚ) ax).new_adjusted_balance
          = B * fpow 1.08 (-(m / 12)) ∧
      (lumpsum_bounds fpow B m S (frequency : ℚ) ax).nper
          = 2 * (frequency : ℚ) * (ax - 11/24) ∧
      monthly_rate = 0.105 * (1 - 0.065 - 0.01) / 12 ∧
      (lumpsum_bounds fpow B m S (frequency : ℚ) ax).regulatory_lumpsum = 0.25 * B ∧
      (lumpsum_bounds fpow B m S (frequency : ℚ) ax).max_lumpsum
          = max 0 ((lumpsum_bounds fpow B m S (frequency : ℚ) ax).new_adjusted_balance
              + pv fpow monthly_rate (lumpsum_bounds fpow B m S (frequency : ℚ) ax).nper
                  (S / (frequency : ℚ) * 0.5) 0 1) := by
  intro fpow tables gender frequency retirement_age B m S ax hfreq hlook
  have hbase : (1 + discount_rate : ℚ) = 1.08 := by norm_num [discount_rate]
  have hpayout : min_pension_payout = (0.5 : ℚ) := rfl
  unfold lumpsum_bounds
  refine ⟨?_, rfl, ?_, ?_, ?_⟩
  · rw [hbase]
  · norm_num [monthly_rate, interest_rate_net_charges, interest_rate,
      management_charges, regulatory_charges]
  · ring
  · rw [hpayout]

/-- Witness for C3 at frequency 12 and a concrete annuity-factor table. -/
theorem lumpsum_bounds_spec_witness :
    ((((12 : ℤ) : ℚ) = 4 ∨ ((12 : ℤ) : ℚ) = 12) ∧
      lookup_ax ⟨fun _ => none, fun a => if a = 60 then some (25/2) else none,
          fun _ => none, fun _ => none, fun _ _ _ => none⟩ "M" 12 60 = .ok (25/2)) ∧
    (lumpsum_bounds (fun _ _ => 2) 1000000 6 600000 ((12 : ℤ) : ℚ) (25/2)).new_adjusted_balance
        = 1000000 * (fun _ _ => (2 : ℚ)) 1.08 (-(6 / 12)) ∧
    (lumpsum_bounds (fun _ _ => 2) 1000000 6 600000 ((12 : ℤ) : ℚ) (25/2)).nper
        = 2 * ((12 : ℤ) : ℚ) * (25/2 - 11/24) ∧
    monthly_rate = 0.105 * (1 - 0.065 - 0.01) / 12 ∧
    (lumpsum_bounds (fun _ _ => 2) 1000000 6 600000 ((12 : ℤ) : ℚ) (25/2)).regulatory_lumpsum
        = 0.25 * 1000000 ∧
    (lumpsum_bounds (fun _ _ => 2) 1000000 6 600000 ((12 : ℤ) : ℚ) (25/2)).max_lumpsum
        = max 0 ((lumpsum_bounds (fun _ _ => 2) 1000000 6 600000 ((12 : ℤ) : ℚ) (25/2)).new_adjusted_balance
            + pv (fun _ _ => 2) monthly_rate
                (lumpsum_bounds (fun _ _ => 2) 1000000 6 600000 ((12 : ℤ) : ℚ) (25/2)).nper
                (600000 / ((12 : ℤ) : ℚ) * 0.5) 0 1) :=
  ⟨⟨Or.inr (by norm_num), rfl⟩,
    lumpsum_bounds_spec (fun _ _ => 2)
      ⟨fun _ => none, fun a => if a = 60 then some (25/2) else none,
        fun _ => none, fun _ => none, fun _ _ _ => none⟩ "M" 12 60 1000000 6 600000 (25/2)
      (Or.inr (by norm_num)) rfl⟩

/-- Half-to-even rounding lands within half a unit of its argument. -/
theorem pyRound_abs_le (x : ℚ) : |((pyRound x : ℤ) : ℚ) - x| ≤ 1/2 := by
  have h0 : ((⌊x⌋ : ℤ) : ℚ) ≤ x := Int.floor_le x
  have h1 : x < ((⌊x⌋ : ℤ) : ℚ) + 1 := Int.lt_floor_add_one x
  unfold pyRound
  split_ifs with ha hb hc
  · rw [abs_le]; constructor <;> linarith
  · rw [abs_le]; push_cast; constructor <;> linarith
  · rw [abs_le]; constructor <;> linarith [le_of_not_lt ha, le_of_not_lt hb]
  · rw [abs_le]; push_cast; constructor <;> linarith [le_of_not_lt ha, le_of_not_lt hb]

/-- Half-to-even rounding of a value at most 6 is at most 6. -/
theorem pyRound_le_six {y : ℚ} (h : y ≤ 6) : pyRound y ≤ 6 := by
  have hb := abs_le.mp (pyRound_abs_le y)
  have h2 : ((pyRound y : ℤ) : ℚ) < 7 := by linarith [hb.2]
  have h3 : pyRound y < 7 := by exact_mod_cast h2
  omega

/-- Half-to-even rounding fixes integers. -/
theorem pyRound_intCast (n : ℤ) : pyRound ((n : ℤ) : ℚ) = n := by
  unfold pyRound
  rw [Int.floor_intCast]
  rw [if_pos (by norm_num : ((n : ℤ) : ℚ) - ((n : ℤ) : ℚ) < 1/2)]

/-- C4: for retirement date on or before the valuation date, the maximum
arrears month count is `yearfrac * 12` rounded to a nearest whole month
(within half a month), with the pre-rounding value capped at 6 for the private
sector; for sector `PR` the result never exceeds 6 for any pair of dates,
while for `PU` no cap is applied (witnessed by a pair of dates giving 72). -/
theorem max_arrears_spec :
    (∀ r v : Date,
      (Date.le r v →
        max_arrears r v "PU" = pyRound (yearfrac r v * 12) ∧
        |((max_arrears r v "PU" : ℤ) : ℚ) - yearfrac r v * 12| ≤ 1/2 ∧
        |((max_arrears r v "PR" : ℤ) : ℚ) - min (yearfrac r v * 12) 6| ≤ 1/2) ∧
      max_arrears r v "PR" ≤ 6) ∧
    max_arrears ⟨2020, 1, 1⟩ ⟨2026, 1, 1⟩ "PU" = 72 := by
  have hPU : ¬("PU" : String) = "PR" := by decide
  have hq : ∀ r v : Date, max_arrears_q r v "PU" = yearfrac r v * 12 := by
    intro r v
    unfold max_arrears_q
    rw [if_neg hPU]
  have hqPR : ∀ r v : Date, max_arrears_q r v "PR" = min (yearfrac r v * 12) 6 := by
    intro r v
    unfold max_arrears_q
    rw [if_pos rfl]
  constructor
  · intro r v
    constructor
    · intro _
      refine ⟨?_, ?_, ?_⟩
      · unfold max_arrears
        rw [hq]
      · unfold max_arrears
        rw [hq]
        exact pyRound_abs_le _
      · unfold max_arrears
        rw [hqPR]
        exact pyRound_abs_le _
    · unfold max_arrears
      rw [hqPR]
      exact pyRound_le_six (min_le_right _ _)
  · have hdelta : relativedelta ⟨2026, 1, 1⟩ ⟨2020, 1, 1⟩ = ⟨6, 0, 0⟩ := by decide
    have hyf : yearfrac ⟨2020, 1, 1⟩ ⟨2026, 1, 1⟩ = 6 := by
      unfold yearfrac
      rw [hdelta]
      norm_num
    unfold max_arrears
    rw [hq, hyf]
    have h72 : (6 : ℚ) * 12 = ((72 : ℤ) : ℚ) := by norm_num
    rw [h72, pyRound_intCast]

/-- Witness for C4 at a concrete chronological pair of dates. -/
theorem max_arrears_spec_witness :
    Date.le ⟨2020, 1, 1⟩ ⟨2020, 3, 1⟩ ∧
    (max_arrears ⟨2020, 1, 1⟩ ⟨2020, 3, 1⟩ "PU"
        = pyRound (yearfrac ⟨2020, 1, 1⟩ ⟨2020, 3, 1⟩ * 12) ∧
      |((max_arrears ⟨2020, 1, 1⟩ ⟨2020, 3, 1⟩ "PU" : ℤ) : ℚ)
          - yearfrac ⟨2020, 1, 1⟩ ⟨2020, 3, 1⟩ * 12| ≤ 1/2 ∧
      |((max_arrears ⟨2020, 1, 1⟩ ⟨2020, 3, 1⟩ "PR" : ℤ) : ℚ)
          - min (yearfrac ⟨2020, 1, 1⟩ ⟨2020, 3, 1⟩ * 12) 6| ≤ 1/2) :=
  ⟨by decide, (max_arrears_spec.1 ⟨2020, 1, 1⟩ ⟨2020, 3, 1⟩).1 (by decide)⟩

/-- C6: when any stage of the per-client calculation fails, the output record
of that client is exactly `create_error_result`: status `ERROR`, the
originating error message, and every computed field null — no partial result;
and batch processing is an independent per-row map, so a failure in one row
neither alters the result of any other row nor aborts the batch. -/
theorem batch_error_isolation :
    ∀ (fpow : ℚ → ℚ → ℚ) (tables : Tables),
      (∀ (row : ClientRow) (e : String),
        process_single_client_core fpow tables row = .error e →
        process_single_client fpow tables row = create_error_result row e ∧
        (process_single_client fpow tables row).status = "ERROR" ∧
        (process_single_client fpow tables row).error_message = e ∧
        (process_single_client fpow tables row).current_age = none ∧
        (process_single_client fpow tables row).retirement_age = none ∧
        (process_single_client fpow tables row).validated_salary = none ∧
        (process_single_client fpow tables row).max_arrears_months = none ∧
        (process_single_client fpow tables row).final_lumpsum = none ∧
        (process_single_client fpow tables row).final_monthly_pension = none ∧
        (process_single_client fpow tables row).pension_arrears = none ∧
        (process_single_client fpow tables row).total_benefit = none ∧
        (process_single_client fpow tables row).annuity_premium = none) ∧
      (∀ rows : List ClientRow,
        (process_batch fpow tables rows).length = rows.length ∧
        ∀ i : ℕ, (process_batch fpow tables rows).get? i
          = (rows.get? i).map (process_single_client fpow tables)) := by
  intro fpow tables
  constructor
  · intro row e h
    have hp : process_single_client fpow tables row = create_error_result row e := by
      unfold process_single_client
      rw [h]
    refine ⟨hp, ?_, ?_, ?_, ?_, ?_, ?_, ?_, ?_, ?_, ?_, ?_⟩ <;> rw [hp] <;> rfl
  · intro rows
    constructor
    · simp [process_batch]
    · intro i
      simp [process_batch]

/-- Witness for C6: a row with an invalid gender fails the annuity-factor
lookup, and its record is the all-null error record. -/
theorem batch_error_isolation_witness :
    process_single_client_core (fun _ _ => 1)
        ⟨fun _ => none, fun _ => none, fun _ => none, fun _ => none, fun _ _ _ => none⟩
        ⟨"c1", ⟨1960, 1, 1⟩, ⟨2020, 1, 1⟩, ⟨2021, 1, 1⟩, "X", "PR", 12, 1000000, 50000,
          "", "", ""⟩
      = .error "Invalid combination of gender (X) and frequency (12)." ∧
    process_single_client (fun _ _ => 1)
        ⟨fun _ => none, fun _ => none, fun _ => none, fun _ => none, fun _ _ _ => none⟩
        ⟨"c1", ⟨1960, 1, 1⟩, ⟨2020, 1, 1⟩, ⟨2021, 1, 1⟩, "X", "PR", 12, 1000000, 50000,
          "", "", ""⟩
      = create_error_result
          ⟨"c1", ⟨1960, 1, 1⟩, ⟨2020, 1, 1⟩, ⟨2021, 1, 1⟩, "X", "PR", 12, 1000000, 50000,
            "", "", ""⟩
          "Invalid combination of gender (X) and frequency (12)." :=
  ⟨by rfl,
    ((batch_error_isolation (fun _ _ => 1)
        ⟨fun _ => none, fun _ => none, fun _ => none, fun _ => none, fun _ _ _ => none⟩).1
      ⟨"c1", ⟨1960, 1, 1⟩, ⟨2020, 1, 1⟩, ⟨2021, 1, 1⟩, "X", "PR", 12, 1000000, 50000,
        "", "", ""⟩
      "Invalid combination of gender (X) and frequency (12)." (by rfl)).1⟩
